import Mathlib

/-!
Verification development for the v3io control-plane resource layer
(`v3io/controlplane/resources.py`): the JSON:API envelope codec
(`_BaseResource.Config._BaseGetter`), the pydantic encode/decode behaviour
used by `_BaseResource` (`from_orm`, `_fields_to_attributes`), the generic
`update`/`delete` lifecycle, the `User` group-membership workflow, the
`Job` immutability overrides, and `Configurations.reload`.

Python dicts are modelled as association lists in insertion order; JSON
values as the inductive `Value`.  Pydantic v1 semantics that the source
relies on are embedded explicitly:
* `from_orm` reads every declared field through the configured getter with
  the `_missing` sentinel as default; a field counts as *set*
  (member of `__fields_set__`) exactly when the getter does not fall back
  to the sentinel (`pydantic.main.validate_model`); with a `GetterDict`
  input no extra keys are collected (`GetterDict.extra_keys` is empty).
* `.dict(exclude=E, exclude_none=True, exclude_unset=True)` keeps a field
  iff its name is outside `E`, the field is not declared with
  `Field(..., exclude=True)`, its name is in `__fields_set__`, and its
  value is not `None`.
-/

namespace V3io

/-- JSON-like Python values as they flow through the resource layer. -/
inductive Value where
  | none : Value
  | str : String → Value
  | int : Int → Value
  | bool : Bool → Value
  | list : List Value → Value
  | dict : List (String × Value) → Value

/-- Python's `value is None` test, as used by pydantic's `exclude_none`. -/
def Value.isNone : Value → Bool
  | .none => true
  | _ => false

/-- Python `==` between a stored JSON value and a `str` (a non-string value
never equals a string in Python, e.g. `5 == "5"` is `False`). -/
def Value.eqStr (v : Value) (s : String) : Bool :=
  match v with
  | .str t => t == s
  | _ => false

/-- A linkage object `{"id": ..., "type": ...}` inside a relationships bag
(see `User.add_to_group`, which appends `{"id": group_id, "type": "user_group"}`). -/
structure Linkage where
  id : Value
  type_ : String

/-- A relationships bag: relationship name ↦ linkage list.  The wire shape
wraps each linkage list in a single-key dict `{"data": [...]}`; the bag here
stores the list directly and `relBagToValue` restores the wrapper. -/
def RelBag : Type := List (String × List Linkage)

/-- Dict lookup on an association list (first match wins, as in a Python
dict, whose keys are unique by construction). -/
def lookupStr {α : Type} (k : String) : List (String × α) → Option α
  | [] => Option.none
  | (k', v) :: rest => if k' = k then some v else lookupStr k rest

/-- Dict assignment `d[k] = v` on an association list: overwrite in place,
append at the end when the key is new (Python dicts keep insertion order). -/
def setStr {α : Type} (k : String) (v : α) : List (String × α) → List (String × α)
  | [] => [(k, v)]
  | (k', v') :: rest => if k' = k then (k, v) :: rest else (k', v') :: setStr k v rest

/-- A single-resource JSON:API envelope `{"data": {"type", "id",
"attributes", "relationships"}}`.  `relationships` is `Option.none` when the
`data` dict has no `"relationships"` key. -/
structure Envelope where
  type_ : String
  id : Value
  attributes : List (String × Value)
  relationships : Option RelBag

/-- Linkage back to its wire dict `{"id": ..., "type": ...}`. -/
def linkageToValue (l : Linkage) : Value :=
  Value.dict [("id", l.id), ("type", Value.str l.type_)]

/-- A relationships bag back to its wire value:
`{name: {"data": [linkage, ...]}, ...}`. -/
def relBagToValue (bag : RelBag) : Value :=
  Value.dict (bag.map fun nv => (nv.1, Value.dict [("data", Value.list (nv.2.map linkageToValue))]))

/-- `_BaseResource.Config._BaseGetter.get` applied with pydantic's
`_missing` sentinel as the default (the call made by `validate_model` for
each declared field during `from_orm`); `Option.none` is the sentinel.
Mirrors resources.py lines 25–32: `"id"`/`"type"` from `self._obj["data"][key]`,
`"relationships"` from `self._obj["data"].get("relationships", {})`, any other
key from `self._obj["data"]["attributes"]` when present. -/
def baseGetterGetOpt (env : Envelope) (key : String) : Option Value :=
  if key = "id" then some env.id
  else if key = "type" then some (Value.str env.type_)
  else if key = "relationships" then some (relBagToValue (env.relationships.getD []))
  else lookupStr key env.attributes

/-- `_BaseResource.Config._BaseGetter.get` with a caller-supplied default:
returns the resolved value, or `default` when the key is neither an identity
field, nor `relationships`, nor present in the attributes bag. -/
def baseGetterGet (env : Envelope) (key : String) (default : Value) : Value :=
  (baseGetterGetOpt env key).getD default

/-- Declared pydantic field of a concrete resource kind: name, default
value, and whether it was declared `Field(..., exclude=True)` (excluded from
every `.dict()` call, like `User.password`). -/
structure FieldSpec where
  name : String
  default : Value
  excludeFromDict : Bool := false

/-- A decoded resource instance.  `type_`, `id`, `relationships` are the
`_BaseResource` base fields; `fields` holds the kind-specific field values in
schema order; `fieldsSet` is pydantic's `__fields_set__`. -/
structure Resource where
  type_ : String
  id : Value
  relationships : RelBag
  fields : List (String × Value)
  fieldsSet : List String

/-- `cls.from_orm({"data": ...})` over the kind's declared fields: every
field is read through `_BaseGetter.get` with the `_missing` sentinel; a field
falling back to the sentinel takes its declared default and stays outside
`__fields_set__`.  `type`/`id`/`relationships` are always found by the
getter, hence always set. -/
def fromOrm (schema : List FieldSpec) (env : Envelope) : Resource :=
  { type_ := env.type_
    id := env.id
    relationships := env.relationships.getD []
    fields := schema.map fun s => (s.name, (baseGetterGetOpt env s.name).getD s.default)
    fieldsSet := ["type", "id", "relationships"] ++
      (schema.filter fun s => (baseGetterGetOpt env s.name).isSome).map (·.name) }

/-- All entries `.dict()` iterates over before exclusion: the three base
fields followed by the kind-specific fields. -/
def dictAllFields (r : Resource) : List (String × Value) :=
  ("type", Value.str r.type_) :: ("id", r.id) :: ("relationships", relBagToValue r.relationships)
    :: r.fields

/-- `_BaseResource._fields_to_attributes` (resources.py lines 89–94):
`self.dict(exclude={"type", "relationships", "id"}, exclude_none=True,
exclude_unset=True)`.  An entry survives iff its name is not in the exclude
set, its field is not declared `exclude=True`, it is in `__fields_set__`,
and its value is not `None`. -/
def fieldsToAttributes (schema : List FieldSpec) (r : Resource) : List (String × Value) :=
  (dictAllFields r).filter fun nv =>
    !(["type", "relationships", "id"] : List String).contains nv.1
      && !(schema.any fun s => s.name == nv.1 && s.excludeFromDict)
      && r.fieldsSet.contains nv.1
      && !(nv.2.isNone)

/-- Declared fields of `User` (resources.py lines 97–111), defaults
included; `password` is `Field(None, exclude=True)`. -/
def userSchema : List FieldSpec :=
  [ { name := "username", default := Value.str "" }
  , { name := "first_name", default := Value.str "" }
  , { name := "last_name", default := Value.str "" }
  , { name := "email", default := Value.str "" }
  , { name := "uid", default := Value.int 0 }
  , { name := "created_at", default := Value.str "" }
  , { name := "data_access_mode", default := Value.str "" }
  , { name := "authentication_scheme", default := Value.str "" }
  , { name := "send_password_on_creation", default := Value.bool false }
  , { name := "assigned_policies", default := Value.list [] }
  , { name := "operational_status", default := Value.str "" }
  , { name := "admin_status", default := Value.str "" }
  , { name := "password", default := Value.none, excludeFromDict := true } ]

/-- Declared fields of `UserGroup` (resources.py lines 188–196). -/
def userGroupSchema : List FieldSpec :=
  [ { name := "name", default := Value.str "" }
  , { name := "description", default := Value.none }
  , { name := "data_access_mode", default := Value.str "enabled" }
  , { name := "gid", default := Value.int 0 }
  , { name := "kind", default := Value.str "local" }
  , { name := "assigned_policies", default := Value.list [] }
  , { name := "system_provided", default := Value.bool false } ]

/-- Modelled from the spec: `SessionPlanes.all()` — an external enumeration
opaque to this layer (glossary: "Plane"); a fixed list standing for all
session planes. -/
def SessionPlanes.all : List Value :=
  [Value.str "control", Value.str "data"]

/-- Declared fields of `AccessKey` (resources.py lines 240–253).  The
`datetime.utcnow` default factories are modelled as a fixed placeholder
timestamp; `SessionPlanes.all()` is modelled from the spec above. -/
def accessKeySchema : List FieldSpec :=
  [ { name := "tenant_id", default := Value.str "" }
  , { name := "ttl", default := Value.int 315360000 }
  , { name := "created_at", default := Value.str "1970-01-01T00:00:00" }
  , { name := "updated_at", default := Value.str "1970-01-01T00:00:00" }
  , { name := "group_ids", default := Value.list [] }
  , { name := "uid", default := Value.int 0 }
  , { name := "gids", default := Value.list [] }
  , { name := "expires_at", default := Value.int 0 }
  , { name := "interface_kind", default := Value.str "web" }
  , { name := "label", default := Value.str "" }
  , { name := "kind", default := Value.str "accessKey" }
  , { name := "planes", default := Value.list SessionPlanes.all } ]

/-- Declared fields of `Job` (resources.py lines 278–292); the `delay`
float default `0` is modelled as the integer `0`, the `utcnow` factories as
a fixed placeholder timestamp. -/
def jobSchema : List FieldSpec :=
  [ { name := "kind", default := Value.str "" }
  , { name := "params", default := Value.str "" }
  , { name := "max_total_execution_time", default := Value.int 10800 }
  , { name := "max_worker_execution_time", default := Value.none }
  , { name := "delay", default := Value.int 0 }
  , { name := "state", default := Value.str "created" }
  , { name := "result", default := Value.str "" }
  , { name := "created_at", default := Value.str "1970-01-01T00:00:00" }
  , { name := "on_success", default := Value.none }
  , { name := "on_failure", default := Value.none }
  , { name := "updated_at", default := Value.str "1970-01-01T00:00:00" }
  , { name := "handler", default := Value.str "" }
  , { name := "ctx_id", default := Value.str "" } ]

/-- Modelled from the spec: the state the remote control plane holds for the
one resource the lifecycle claims operate on (the transport and server are
external collaborators; `src/` only contains their call sites).  The server
keeps the resource's identity, current attributes, and relationships bag. -/
structure Stored where
  type_ : String
  id : Value
  attributes : List (String × Value)
  relationships : RelBag

/-- Modelled from the spec: a `get` round trip returns the stored resource as
an envelope; related collections (the relationships bag) are inlined only
when the caller asked for them via `include` (spec §4.4 `get`). -/
def serverGet (st : Stored) (includeRels : Bool) : Envelope :=
  { type_ := st.type_
    id := st.id
    attributes := st.attributes
    relationships := if includeRels then some st.relationships else Option.none }

/-- Modelled from the spec: the server applies an `update` request as a
partial update — only the supplied attribute keys change (spec §4.3), and
the relationships bag is replaced when one is supplied. -/
def serverApplyUpdate (st : Stored) (attrs : List (String × Value)) (rels : Option RelBag) :
    Stored :=
  { st with
    attributes := attrs.foldl (fun acc kv => setStr kv.1 kv.2 acc) st.attributes
    relationships := rels.getD st.relationships }

/-- Everything observable about one run of `_BaseResource.update`: the
update request sent to the crud handler, the id used for the re-fetch, the
server state afterwards, the caller's instance after the in-place overlay,
and the value the coroutine returns to its caller. -/
structure UpdateTrace where
  sentId : Value
  sentAttributes : List (String × Value)
  sentRelationships : Option RelBag
  refetchId : Value
  server : Stored
  selfAfter : Resource
  returned : Option Resource

/-- `self.__dict__.update(updated_resource)` (resources.py line 80):
iterating a pydantic model yields every `(field, value)` pair, so all field
values of `self` are replaced by the re-fetched ones; `__fields_set__` is
not part of `__dict__` and stays untouched. -/
def dictUpdateOverlay (r updated : Resource) : Resource :=
  { type_ := updated.type_
    id := updated.id
    relationships := updated.relationships
    fields := updated.fields
    fieldsSet := r.fieldsSet }

/-- `_BaseResource.update` (resources.py lines 68–80): send the delta
attributes (`_fields_to_attributes`) and the optional relationships for
`self.id`, re-fetch by `self.id` (without `include`), overlay the refreshed
state onto `self` in place.  The method body has no `return` statement, so
the coroutine returns `None` — recorded as `returned := Option.none`. -/
def updateResource (schema : List FieldSpec) (r : Resource) (st : Stored)
    (rels : Option RelBag) : UpdateTrace :=
  let sentAttrs := fieldsToAttributes schema r
  let st1 := serverApplyUpdate st sentAttrs rels
  let refetched := fromOrm schema (serverGet st1 false)
  { sentId := r.id
    sentAttributes := sentAttrs
    sentRelationships := rels
    refetchId := r.id
    server := st1
    selfAfter := dictUpdateOverlay r refetched
    returned := Option.none }

/-- The `user_groups` linkage list the server currently stores. -/
def storedUserGroups (st : Stored) : List Linkage :=
  (lookupStr "user_groups" st.relationships).getD []

/-- How many stored `user_groups` linkages have the given group id. -/
def countMatching (st : Stored) (groupId : String) : Nat :=
  ((storedUserGroups st).filter fun g => g.id.eqStr groupId).length

/-- `User.add_to_group` (resources.py lines 154–172): fetch the user with
`include=["user_groups"]`, initialise the `user_groups` entry to an empty
linkage list when the bag lacks it, and only when no linkage with
`group_id` is present append `{"id": group_id, "type": "user_group"}` and
push the whole bag back through `update`; otherwise no request is sent and
the server is untouched. -/
def addToGroup (schema : List FieldSpec) (st : Stored) (groupId : String) : Stored :=
  let user := fromOrm schema (serverGet st true)
  let rel0 :=
    if (lookupStr "user_groups" user.relationships).isNone then
      setStr "user_groups" [] user.relationships
    else user.relationships
  let groups := (lookupStr "user_groups" rel0).getD []
  if groups.any (fun g => g.id.eqStr groupId) then st
  else
    let rel1 := setStr "user_groups" (groups ++ [{ id := Value.str groupId, type_ := "user_group" }]) rel0
    (updateResource schema { user with relationships := rel1 } st (some rel1)).server

/-- `User.remove_from_group` (resources.py lines 174–185): fetch the user
with `include=["user_groups"]`; when the bag has a `user_groups` entry,
filter out every linkage whose id equals `group_id` and push the bag back
through `update`; when the bag lacks the entry, do nothing. -/
def removeFromGroup (schema : List FieldSpec) (st : Stored) (groupId : String) : Stored :=
  let user := fromOrm schema (serverGet st true)
  match lookupStr "user_groups" user.relationships with
  | Option.none => st
  | some groups =>
    let rel1 := setStr "user_groups" (groups.filter fun g => !(g.id.eqStr groupId)) user.relationships
    (updateResource schema { user with relationships := rel1 } st (some rel1)).server

/-- Error conditions a resource operation can surface.  `runtimeError` is
Python's builtin `RuntimeError` raised by `Job.update`/`Job.delete`;
`unsupportedOperationError` and `timeoutError` are the error kinds named by
the specification's taxonomy (§7). -/
inductive ErrKind where
  | runtimeError (msg : String)
  | unsupportedOperationError
  | notFoundError
  | timeoutError
deriving DecidableEq, Repr

/-- `Job.update` (resources.py lines 297–298): the body is a single
`raise RuntimeError("This resource is not update-able")`, so the call fails
before any crud handler or transport call; the second component lists the
transport requests issued (none). -/
def jobUpdate (_job : Resource) : Except ErrKind Unit × List String :=
  (Except.error (ErrKind.runtimeError "This resource is not update-able"), [])

/-- `Job.delete` (resources.py lines 294–295): a single
`raise RuntimeError("This resource is not delete-able")`; no transport
request is issued. -/
def jobDelete (_job : Resource) : Except ErrKind Unit × List String :=
  (Except.error (ErrKind.runtimeError "This resource is not delete-able"), [])

namespace TenantManagementRoles

/-- Modelled from the spec: `TenantManagementRoles.developer.value` — the
constants module is not under `src/`; the spec names the default policy set
"developer + read-only application access". -/
def developer : Value := Value.str "developer"

/-- Modelled from the spec: `TenantManagementRoles.application_read_only.value`. -/
def application_read_only : Value := Value.str "application_read_only"

/-- Modelled from the spec: `TenantManagementRoles.data.value` — the spec
names the user-group default policy set "data + application-admin". -/
def data : Value := Value.str "data"

/-- Modelled from the spec: `TenantManagementRoles.application_admin.value`. -/
def application_admin : Value := Value.str "application_admin"

end TenantManagementRoles

/-- `User.create` (resources.py lines 113–142): the attributes dict passed
to the crud handler.  `assigned_policies or [developer, application_read_only]`
substitutes the default when the argument is falsy (`None` or the empty
list). -/
def userCreateAttributes (username password email first_name last_name : Value)
    (assigned_policies : Option (List Value)) : List (String × Value) :=
  let ap :=
    match assigned_policies with
    | Option.none => [TenantManagementRoles.developer, TenantManagementRoles.application_read_only]
    | some [] => [TenantManagementRoles.developer, TenantManagementRoles.application_read_only]
    | some l => l
  [ ("username", username)
  , ("first_name", first_name)
  , ("last_name", last_name)
  , ("email", email)
  , ("password", password)
  , ("assigned_policies", Value.list ap) ]

/-- `UserGroup.create` (resources.py lines 198–237): the attributes dict
passed to the crud handler; `if not assigned_policies` substitutes the
default `[data, application_admin]` when the argument is falsy. -/
def userGroupCreateAttributes (name description gid : Value)
    (assigned_policies : Option (List Value)) : List (String × Value) :=
  let ap :=
    match assigned_policies with
    | Option.none => [TenantManagementRoles.data, TenantManagementRoles.application_admin]
    | some [] => [TenantManagementRoles.data, TenantManagementRoles.application_admin]
    | some l => l
  [ ("name", name)
  , ("description", description)
  , ("gid", gid)
  , ("assigned_policies", Value.list ap) ]

/-- `AccessKey.create` (resources.py lines 255–275): the attributes dict
passed to the crud handler; the `planes` parameter defaults to
`SessionPlanes.all()` when the argument is omitted (`Option.none` models an
omitted argument — an explicitly passed list, even empty, is used as is). -/
def accessKeyCreateAttributes (planes : Option (List Value)) (label : Value) :
    List (String × Value) :=
  [ ("planes", Value.list (planes.getD SessionPlanes.all))
  , ("label", label) ]

/-- A call to the transport's `request_job(path, timeout)`. -/
structure JobRequest where
  path : String
  timeout : Nat

/-- Modelled from the spec: the transport's `request_job` polls the job and
fails with `TimeoutError` when the job has not reached a terminal state
within `timeout` seconds (spec §4.5/§6); `terminalAt` is the time at which
the job reaches a terminal state. -/
def requestJob (req : JobRequest) (terminalAt : Nat) : Except ErrKind Unit :=
  if req.timeout < terminalAt then Except.error ErrKind.timeoutError
  else Except.ok ()

namespace Configurations

/-- `Configurations.reload` (resources.py lines 303–309): calls
`http_client.request_job(f"configurations/{config_type.value}/reloads",
timeout=60 * 15)`.  The method takes only the config type — there is no
timeout parameter — and always passes the fixed bound `60 * 15` seconds.
Returns the issued request together with its outcome for a job that turns
terminal at `terminalAt`. -/
def reload (config_type : String) (terminalAt : Nat) : JobRequest × Except ErrKind Unit :=
  let req : JobRequest := { path := "configurations/" ++ config_type ++ "/reloads", timeout := 60 * 15 }
  (req, requestJob req terminalAt)

end Configurations

/-! ## Helper lemmas -/

theorem lookupStr_eq_none {α : Type} {l : List (String × α)} {k : String}
    (h : ∀ p ∈ l, p.1 ≠ k) : lookupStr k l = Option.none := by
  induction l with
  | nil => rfl
  | cons p rest ih =>
    rw [show (p :: rest) = ((p.1, p.2) :: rest) from rfl]
    rw [lookupStr, if_neg (h p (by simp))]
    exact ih fun q hq => h q (List.mem_cons_of_mem p hq)

theorem lookupStr_setStr_self {α : Type} (k : String) (v : α) (l : List (String × α)) :
    lookupStr k (setStr k v l) = some v := by
  induction l with
  | nil => simp [setStr, lookupStr]
  | cons p rest ih =>
    rw [show (p :: rest) = ((p.1, p.2) :: rest) from rfl, setStr]
    by_cases h : p.1 = k
    · rw [if_pos h, lookupStr, if_pos rfl]
    · rw [if_neg h, lookupStr, if_neg h]
      exact ih

/-- Every entry of an encoded write payload comes from the model's field
dict, has a name outside the exclude set, belongs to `__fields_set__`, and
has a non-none value. -/
theorem fieldsToAttributes_sound {schema : List FieldSpec} {r : Resource} {p : String × Value}
    (hp : p ∈ fieldsToAttributes schema r) :
    p ∈ dictAllFields r
      ∧ ¬p.1 ∈ (["type", "relationships", "id"] : List String)
      ∧ p.1 ∈ r.fieldsSet
      ∧ p.2.isNone = false := by
  rw [fieldsToAttributes, List.mem_filter] at hp
  obtain ⟨hmem, hcond⟩ := hp
  simp only [Bool.and_eq_true, Bool.not_eq_true'] at hcond
  obtain ⟨⟨⟨ha, _hb⟩, hc⟩, hd⟩ := hcond
  exact ⟨hmem, by simpa using ha, by simpa using hc, hd⟩

/-! ## Claims -/

/-- **C1** — For every envelope and field name, `_BaseGetter.get` resolves
with this precedence: `id` and `type` come from the envelope's top-level
identity fields (so an `"id"` key inside `attributes` never shadows the
top-level id), `relationships` comes from the relationships bag defaulting
to the empty mapping when the envelope lacks one, and any other field is
read from the attributes bag with the supplied default when missing. -/
theorem c1_getter_precedence (env : Envelope) (key : String) (default : Value) :
    baseGetterGet env "id" default = env.id
      ∧ baseGetterGet env "type" default = Value.str env.type_
      ∧ baseGetterGet env "relationships" default = relBagToValue (env.relationships.getD [])
      ∧ (env.relationships = Option.none →
          baseGetterGet env "relationships" default = Value.dict [])
      ∧ (key ≠ "id" → key ≠ "type" → key ≠ "relationships" →
          baseGetterGet env key default = (lookupStr key env.attributes).getD default) := by
  refine ⟨rfl, rfl, rfl, ?_, ?_⟩
  · intro h
    simp [baseGetterGet, baseGetterGetOpt, h, relBagToValue]
  · intro h1 h2 h3
    simp [baseGetterGet, baseGetterGetOpt, h1, h2, h3]

/-- Sample envelope whose attributes bag carries a shadowing `"id"` key. -/
def envelopeC1 : Envelope :=
  { type_ := "user"
    id := Value.int 3
    attributes := [("id", Value.str "shadow"), ("username", Value.str "alice")]
    relationships := Option.none }

/-- Witness for `c1_getter_precedence` at a concrete envelope: the
top-level id wins over the shadowing attribute, and `"username"` falls
through to the attributes bag. -/
theorem c1_getter_precedence_witness :
    baseGetterGet envelopeC1 "id" Value.none = Value.int 3
      ∧ envelopeC1.relationships = Option.none
      ∧ baseGetterGet envelopeC1 "relationships" Value.none = Value.dict []
      ∧ baseGetterGet envelopeC1 "username" Value.none
          = (lookupStr "username" envelopeC1.attributes).getD Value.none :=
  ⟨(c1_getter_precedence envelopeC1 "username" Value.none).1,
    rfl,
    (c1_getter_precedence envelopeC1 "username" Value.none).2.2.2.1 rfl,
    (c1_getter_precedence envelopeC1 "username" Value.none).2.2.2.2
      (by decide) (by decide) (by decide)⟩

/-- **C2** — For every resource instance of every kind, the encoded write
payload (`_fields_to_attributes`) never contains the keys `type`,
`relationships` or `id`, and every entry it does contain belongs to a field
that is set (`__fields_set__`) with a value that is not none. -/
theorem c2_encode_excludes (schema : List FieldSpec) (r : Resource) :
    lookupStr "type" (fieldsToAttributes schema r) = Option.none
      ∧ lookupStr "relationships" (fieldsToAttributes schema r) = Option.none
      ∧ lookupStr "id" (fieldsToAttributes schema r) = Option.none
      ∧ ∀ p ∈ fieldsToAttributes schema r, p.1 ∈ r.fieldsSet ∧ p.2.isNone = false := by
  refine ⟨?_, ?_, ?_, ?_⟩
  · exact lookupStr_eq_none fun p hp => by
      have h := (fieldsToAttributes_sound hp).2.1
      intro hk
      exact h (by simp [hk])
  · exact lookupStr_eq_none fun p hp => by
      have h := (fieldsToAttributes_sound hp).2.1
      intro hk
      exact h (by simp [hk])
  · exact lookupStr_eq_none fun p hp => by
      have h := (fieldsToAttributes_sound hp).2.1
      intro hk
      exact h (by simp [hk])
  · intro p hp
    have h := fieldsToAttributes_sound hp
    exact ⟨h.2.2.1, h.2.2.2⟩

/-- A `User` instance with a set username, a set password, and a set
field whose value is none — the payload must keep only the username. -/
def userInstanceC2 : Resource :=
  { type_ := "user"
    id := Value.int 7
    relationships := []
    fields := [("username", Value.str "alice"), ("password", Value.str "hunter2"),
               ("email", Value.none)]
    fieldsSet := ["type", "id", "relationships", "username", "password", "email"] }

/-- Witness for `c2_encode_excludes`: on a concrete `User` instance the
payload is exactly the username entry, the identity keys are absent, and
the payload entry is a set, non-none field. -/
theorem c2_encode_excludes_witness :
    fieldsToAttributes userSchema userInstanceC2 = [("username", Value.str "alice")]
      ∧ lookupStr "type" (fieldsToAttributes userSchema userInstanceC2) = Option.none
      ∧ (("username", Value.str "alice") ∈ fieldsToAttributes userSchema userInstanceC2 →
          ("username", Value.str "alice").1 ∈ userInstanceC2.fieldsSet
            ∧ ("username", Value.str "alice").2.isNone = false) :=
  ⟨rfl, (c2_encode_excludes userSchema userInstanceC2).1,
    fun hp => (c2_encode_excludes userSchema userInstanceC2).2.2.2 _ hp⟩

/-- An ordinary user envelope carrying one attribute. -/
def envelopeC3 : Envelope :=
  { type_ := "user"
    id := Value.int 17
    attributes := [("username", Value.str "alice")]
    relationships := Option.none }

/-- **C3 counterexample** — decoding an envelope into a `User` and
re-encoding it for update with no field changed does *not* produce an
empty attribute payload: `from_orm` marks every field found by the getter
as set (member of `__fields_set__`), so the recognized envelope attributes
survive `exclude_unset` and come back in the payload. -/
theorem c3_roundtrip_counterexample :
    fieldsToAttributes userSchema (fromOrm userSchema envelopeC3)
        = [("username", Value.str "alice")]
      ∧ fieldsToAttributes userSchema (fromOrm userSchema envelopeC3) ≠ [] := by
  have e : fieldsToAttributes userSchema (fromOrm userSchema envelopeC3)
      = [("username", Value.str "alice")] := by rfl
  exact ⟨e, by rw [e]; exact List.cons_ne_nil _ _⟩

/-- **C3 (amended)** — decoding an envelope and re-encoding it for an
update with no field changed produces a payload containing *exactly* the
envelope's attribute entries that are declared, non-excluded model fields
with non-none values: every payload entry is such an attribute of the
original envelope (identity fields and relationships are dropped), and
conversely every declared field whose name is neither an identity field
nor excluded, and whose envelope attribute value is non-none, appears in
the payload; in particular the payload is empty when the envelope's
attributes bag is empty. -/
theorem c3_roundtrip_amended (schema : List FieldSpec) (env : Envelope) :
    (∀ p ∈ fieldsToAttributes schema (fromOrm schema env),
        lookupStr p.1 env.attributes = some p.2 ∧ p.2.isNone = false)
      ∧ (∀ s ∈ schema, ¬s.name ∈ (["type", "relationships", "id"] : List String) →
          (schema.any fun t => t.name == s.name && t.excludeFromDict) = false →
          ∀ v, lookupStr s.name env.attributes = some v → v.isNone = false →
            (s.name, v) ∈ fieldsToAttributes schema (fromOrm schema env))
      ∧ (env.attributes = [] → fieldsToAttributes schema (fromOrm schema env) = []) := by
  have main : ∀ p ∈ fieldsToAttributes schema (fromOrm schema env),
      lookupStr p.1 env.attributes = some p.2 ∧ p.2.isNone = false := by
    intro p hp
    obtain ⟨hmem, hex, hset, hnone⟩ := fieldsToAttributes_sound hp
    refine ⟨?_, hnone⟩
    have hne1 : p.1 ≠ "type" := fun hk => hex (by simp [hk])
    have hne2 : p.1 ≠ "relationships" := fun hk => hex (by simp [hk])
    have hne3 : p.1 ≠ "id" := fun hk => hex (by simp [hk])
    -- p is one of the kind-specific field entries
    have hfield : p ∈ (fromOrm schema env).fields := by
      rw [dictAllFields] at hmem
      simp only [List.mem_cons] at hmem
      rcases hmem with h | h | h | h
      · exact absurd (congrArg Prod.fst h) hne1
      · exact absurd (congrArg Prod.fst h) hne3
      · exact absurd (congrArg Prod.fst h) hne2
      · exact h
    -- the getter found p.1 in the envelope (p.1 is in fields-set, not special)
    have hsome : (baseGetterGetOpt env p.1).isSome := by
      rw [fromOrm] at hset
      simp only [List.mem_append, List.mem_cons, List.mem_map, List.mem_filter] at hset
      rcases hset with (h | h | h | h) | ⟨s, ⟨_hs, hsome⟩, hname⟩
      · exact absurd h hne1
      · exact absurd h hne3
      · exact absurd h hne2
      · exact absurd h (List.not_mem_nil p.1)
      · rw [← hname]; exact hsome
    -- p.2 is exactly the looked-up attribute value
    rw [fromOrm] at hfield
    simp only [List.mem_map] at hfield
    obtain ⟨s, _hs, hps⟩ := hfield
    have hname : s.name = p.1 := congrArg Prod.fst hps
    have hval : (baseGetterGetOpt env s.name).getD s.default = p.2 := congrArg Prod.snd hps
    rw [hname] at hval
    have hlook : baseGetterGetOpt env p.1 = lookupStr p.1 env.attributes := by
      rw [baseGetterGetOpt, if_neg hne3, if_neg hne1, if_neg hne2]
    rw [hlook] at hval hsome
    obtain ⟨w, hw⟩ := Option.isSome_iff_exists.mp hsome
    rw [hw] at hval ⊢
    rw [Option.getD_some] at hval
    rw [hval]
  refine ⟨main, ?_, ?_⟩
  · intro s hs hnsp hnex v hv hvn
    have hne1 : s.name ≠ "type" := fun hk => hnsp (by simp [hk])
    have hne2 : s.name ≠ "relationships" := fun hk => hnsp (by simp [hk])
    have hne3 : s.name ≠ "id" := fun hk => hnsp (by simp [hk])
    have hlook : baseGetterGetOpt env s.name = some v := by
      rw [baseGetterGetOpt, if_neg hne3, if_neg hne1, if_neg hne2]
      exact hv
    have hentry : (s.name, v) ∈ (fromOrm schema env).fields := by
      rw [fromOrm]
      refine List.mem_map.mpr ⟨s, hs, ?_⟩
      rw [hlook, Option.getD_some]
    have hmem : (s.name, v) ∈ dictAllFields (fromOrm schema env) := by
      rw [dictAllFields]
      exact List.mem_cons_of_mem _ (List.mem_cons_of_mem _ (List.mem_cons_of_mem _ hentry))
    have hset : s.name ∈ (fromOrm schema env).fieldsSet := by
      rw [fromOrm]
      refine List.mem_append_right _ ?_
      refine List.mem_map.mpr ⟨s, List.mem_filter.mpr ⟨hs, ?_⟩, rfl⟩
      rw [hlook]
      rfl
    rw [fieldsToAttributes]
    refine List.mem_filter.mpr ⟨hmem, ?_⟩
    simp only [Bool.and_eq_true, Bool.not_eq_true']
    refine ⟨⟨⟨?_, ?_⟩, ?_⟩, hvn⟩
    · simpa using hnsp
    · exact hnex
    · simpa using hset
  · intro hempty
    rw [List.eq_nil_iff_forall_not_mem]
    intro p hp
    have h := (main p hp).1
    rw [hempty] at h
    exact Option.noConfusion h

/-- Witness for `c3_roundtrip_amended` at the concrete envelope: the
declared `username` field found in the envelope round-trips into the
payload (completeness direction), and that payload entry is looked up back
in the envelope (soundness direction). -/
theorem c3_roundtrip_amended_witness :
    ("username", Value.str "alice") ∈ fieldsToAttributes userSchema (fromOrm userSchema envelopeC3)
      ∧ lookupStr "username" envelopeC3.attributes = some (Value.str "alice") := by
  have hs : ({ name := "username", default := Value.str "" } : FieldSpec) ∈ userSchema :=
    List.mem_cons_self _ _
  have hmem : ("username", Value.str "alice")
      ∈ fieldsToAttributes userSchema (fromOrm userSchema envelopeC3) :=
    (c3_roundtrip_amended userSchema envelopeC3).2.1 _ hs (by decide) (by decide)
      (Value.str "alice") rfl rfl
  exact ⟨hmem, ((c3_roundtrip_amended userSchema envelopeC3).1 _ hmem).1⟩

/-- When a linkage with the requested group id is already present,
`add_to_group` never reaches the `update` call: the server state is
untouched. -/
theorem addToGroup_present (schema : List FieldSpec) (st : Stored) (groupId : String)
    (h : ((storedUserGroups st).any fun g => g.id.eqStr groupId) = true) :
    addToGroup schema st groupId = st := by
  cases hlk : lookupStr "user_groups" st.relationships with
  | none =>
    have : storedUserGroups st = [] := by simp [storedUserGroups, hlk]
    rw [this] at h
    simp at h
  | some groups =>
    have hgs : storedUserGroups st = groups := by simp [storedUserGroups, hlk]
    rw [hgs] at h
    simp [addToGroup, fromOrm, serverGet, hlk, h]

/-- When no linkage with the requested group id is present, `add_to_group`
appends exactly one `{id: groupId, type: "user_group"}` linkage and writes
the bag back. -/
theorem addToGroup_absent (schema : List FieldSpec) (st : Stored) (groupId : String)
    (h : ((storedUserGroups st).any fun g => g.id.eqStr groupId) = false) :
    storedUserGroups (addToGroup schema st groupId) =
      storedUserGroups st ++ [{ id := Value.str groupId, type_ := "user_group" }] := by
  cases hlk : lookupStr "user_groups" st.relationships with
  | none =>
    have hgs : storedUserGroups st = [] := by simp [storedUserGroups, hlk]
    rw [hgs]
    simp [addToGroup, fromOrm, serverGet, hlk, storedUserGroups, updateResource,
      serverApplyUpdate, lookupStr_setStr_self]
  | some groups =>
    have hgs : storedUserGroups st = groups := by simp [storedUserGroups, hlk]
    rw [hgs] at h ⊢
    simp [addToGroup, fromOrm, serverGet, hlk, h, storedUserGroups, updateResource,
      serverApplyUpdate, lookupStr_setStr_self]

/-- `remove_from_group` leaves on the server exactly the linkages whose id
differs from the requested group id. -/
theorem storedUserGroups_removeFromGroup (schema : List FieldSpec) (st : Stored)
    (groupId : String) :
    storedUserGroups (removeFromGroup schema st groupId) =
      (storedUserGroups st).filter fun g => !(g.id.eqStr groupId) := by
  cases hlk : lookupStr "user_groups" st.relationships with
  | none =>
    have hgs : storedUserGroups st = [] := by simp [storedUserGroups, hlk]
    simp [removeFromGroup, fromOrm, serverGet, hlk, hgs]
  | some groups =>
    have hgs : storedUserGroups st = groups := by simp [storedUserGroups, hlk]
    rw [hgs]
    simp [removeFromGroup, fromOrm, serverGet, hlk, storedUserGroups, updateResource,
      serverApplyUpdate, lookupStr_setStr_self]

/-- **C5** — `add_to_group` is idempotent: the linkage
`{id: groupId, type: "user_group"}` is appended only when no linkage with
that id is present (a present id makes the call a no-op on the server), and
starting from a state with no matching linkage, calling it twice with the
same group id leaves exactly one matching linkage entry. -/
theorem c5_add_to_group_idempotent (schema : List FieldSpec) (st : Stored) (groupId : String)
    (h : countMatching st groupId = 0) :
    countMatching (addToGroup schema st groupId) groupId = 1
      ∧ countMatching (addToGroup schema (addToGroup schema st groupId) groupId) groupId = 1
      ∧ ∀ st' : Stored, ((storedUserGroups st').any fun g => g.id.eqStr groupId) = true →
          addToGroup schema st' groupId = st' := by
  have hfalse : ∀ g ∈ storedUserGroups st, g.id.eqStr groupId = false := by
    rw [countMatching, List.length_eq_zero, List.filter_eq_nil_iff] at h
    intro g hg
    simpa using h g hg
  have hany : ((storedUserGroups st).any fun g => g.id.eqStr groupId) = false := by
    simp only [List.any_eq_false]
    intro g hg
    simp [hfalse g hg]
  have h1 : storedUserGroups (addToGroup schema st groupId) =
      storedUserGroups st ++ [{ id := Value.str groupId, type_ := "user_group" }] :=
    addToGroup_absent schema st groupId hany
  have hlinkage : Value.eqStr (Value.str groupId) groupId = true := by
    simp [Value.eqStr]
  have hcount1 : countMatching (addToGroup schema st groupId) groupId = 1 := by
    rw [countMatching, h1, List.filter_append]
    have : (storedUserGroups st).filter (fun g => g.id.eqStr groupId) = [] := by
      rw [List.filter_eq_nil_iff]
      intro g hg
      simp [hfalse g hg]
    rw [this]
    simp [hlinkage]
  have hany1 : ((storedUserGroups (addToGroup schema st groupId)).any
      fun g => g.id.eqStr groupId) = true := by
    rw [h1]
    simp only [List.any_eq_true]
    exact ⟨_, List.mem_append_right _ (List.mem_singleton.mpr rfl), hlinkage⟩
  refine ⟨hcount1, ?_, fun st' h' => addToGroup_present schema st' groupId h'⟩
  rw [addToGroup_present schema _ groupId hany1]
  exact hcount1

/-- A user stored with one `user_groups` linkage for `"g2"`. -/
def storedUserC5 : Stored :=
  { type_ := "user"
    id := Value.int 7
    attributes := [("username", Value.str "alice")]
    relationships := [("user_groups", [{ id := Value.str "g2", type_ := "user_group" }])] }

/-- Witness for `c5_add_to_group_idempotent`: adding group `"g1"` twice to
a user not in `"g1"` leaves exactly one matching linkage. -/
theorem c5_add_to_group_idempotent_witness :
    countMatching storedUserC5 "g1" = 0
      ∧ countMatching
          (addToGroup userSchema (addToGroup userSchema storedUserC5 "g1") "g1") "g1" = 1 :=
  ⟨by decide, (c5_add_to_group_idempotent userSchema storedUserC5 "g1" (by decide)).2.1⟩

/-- **C6** — `remove_from_group` on a group id not present raises no error
and leaves the `user_groups` linkage list unchanged; when the id is
present, every linkage whose id matches is filtered out. -/
theorem c6_remove_from_group_filters (schema : List FieldSpec) (st : Stored) (groupId : String) :
    (countMatching st groupId = 0 →
        storedUserGroups (removeFromGroup schema st groupId) = storedUserGroups st)
      ∧ ∀ g ∈ storedUserGroups (removeFromGroup schema st groupId),
          g.id.eqStr groupId = false := by
  have hspec := storedUserGroups_removeFromGroup schema st groupId
  constructor
  · intro h
    have hfalse : ∀ g ∈ storedUserGroups st, g.id.eqStr groupId = false := by
      rw [countMatching, List.length_eq_zero, List.filter_eq_nil_iff] at h
      intro g hg
      simpa using h g hg
    rw [hspec, List.filter_eq_self]
    intro g hg
    simp [hfalse g hg]
  · intro g hg
    rw [hspec] at hg
    have := (List.mem_filter.mp hg).2
    simpa using this

/-- Witness for `c6_remove_from_group_filters`: removing the absent group
`"g9"` from a user in `"g2"` leaves the linkage list unchanged. -/
theorem c6_remove_from_group_filters_witness :
    countMatching storedUserC5 "g9" = 0
      ∧ storedUserGroups (removeFromGroup userSchema storedUserC5 "g9")
          = storedUserGroups storedUserC5 :=
  ⟨by decide, (c6_remove_from_group_filters userSchema storedUserC5 "g9").1 (by decide)⟩

/-- A caller's `User` instance that changed only its username. -/
def userInstanceC4 : Resource :=
  { type_ := "user"
    id := Value.int 7
    relationships := []
    fields := [("username", Value.str "alice")]
    fieldsSet := ["type", "id", "relationships", "username"] }

/-- The server's state for that user (it also has an email the caller's
instance does not carry). -/
def storedUserC4 : Stored :=
  { type_ := "user"
    id := Value.int 7
    attributes := [("username", Value.str "bob"), ("email", Value.str "alice@example.com")]
    relationships := [] }

/-- **C4** — one concrete run of `_BaseResource.update`: it sends only the
delta-encoded attributes, re-fetches by the caller's id, and overlays the
refreshed state onto the caller's instance in place (`__fields_set__` is
preserved, the field values are replaced by the re-fetched ones, including
the server-side email the caller never set) — but the coroutine returns
`None`, not the updated resource: the method body has no `return`
statement, contradicting its own `-> "_BaseResource"` annotation. -/
theorem c4_update_mutates_in_place_returns_none :
    (updateResource userSchema userInstanceC4 storedUserC4 Option.none).sentAttributes
        = [("username", Value.str "alice")]
      ∧ (updateResource userSchema userInstanceC4 storedUserC4 Option.none).refetchId
          = userInstanceC4.id
      ∧ (updateResource userSchema userInstanceC4 storedUserC4 Option.none).selfAfter.fieldsSet
          = userInstanceC4.fieldsSet
      ∧ lookupStr "username"
          (updateResource userSchema userInstanceC4 storedUserC4 Option.none).selfAfter.fields
          = some (Value.str "alice")
      ∧ lookupStr "email"
          (updateResource userSchema userInstanceC4 storedUserC4 Option.none).selfAfter.fields
          = some (Value.str "alice@example.com")
      ∧ lookupStr "email" userInstanceC4.fields = Option.none
      ∧ (updateResource userSchema userInstanceC4 storedUserC4 Option.none).returned
          = Option.none :=
  ⟨rfl, rfl, rfl, rfl, rfl, rfl, rfl⟩

/-- A `Job` instance in the `running` state. -/
def jobInstanceC7 : Resource :=
  { type_ := "job"
    id := Value.int 42
    relationships := []
    fields := [("state", Value.str "running")]
    fieldsSet := ["type", "id", "relationships", "state"] }

/-- **C7 counterexample** — calling `update` or `delete` on a concrete Job
fails, but with Python's builtin `RuntimeError`, not with the
`UnsupportedOperationError` the claim names; no transport request is
issued. -/
theorem c7_job_error_kind_counterexample :
    (jobUpdate jobInstanceC7).1
        = Except.error (ErrKind.runtimeError "This resource is not update-able")
      ∧ (jobUpdate jobInstanceC7).1 ≠ Except.error ErrKind.unsupportedOperationError
      ∧ (jobDelete jobInstanceC7).1
          = Except.error (ErrKind.runtimeError "This resource is not delete-able")
      ∧ (jobDelete jobInstanceC7).1 ≠ Except.error ErrKind.unsupportedOperationError
      ∧ (jobUpdate jobInstanceC7).2 = [] ∧ (jobDelete jobInstanceC7).2 = [] := by
  refine ⟨rfl, ?_, rfl, ?_, rfl, rfl⟩ <;> simp [jobUpdate, jobDelete]

/-- **C7 (amended)** — for every Job instance in every state, `update` and
`delete` always fail with a `RuntimeError` (`"This resource is not
update-able"` / `"... delete-able"`) raised before any crud handler is
resolved, so no request is ever issued to the transport. -/
theorem c7_job_immutable_runtime_error (job : Resource) :
    jobUpdate job
        = (Except.error (ErrKind.runtimeError "This resource is not update-able"), [])
      ∧ jobDelete job
          = (Except.error (ErrKind.runtimeError "This resource is not delete-able"), []) :=
  ⟨rfl, rfl⟩

/-- **C8** — `create` applies kind-specific defaults when the caller
supplies none: a `User` created without `assigned_policies` gets exactly
`[developer, application_read_only]`, a `UserGroup` created without
`assigned_policies` gets exactly `[data, application_admin]`, and an
`AccessKey` created without `planes` gets all session planes. -/
theorem c8_create_defaults (username password email first_name last_name : Value)
    (name description gid label : Value) :
    lookupStr "assigned_policies"
        (userCreateAttributes username password email first_name last_name Option.none)
        = some (Value.list
            [TenantManagementRoles.developer, TenantManagementRoles.application_read_only])
      ∧ lookupStr "assigned_policies"
          (userGroupCreateAttributes name description gid Option.none)
          = some (Value.list
              [TenantManagementRoles.data, TenantManagementRoles.application_admin])
      ∧ lookupStr "planes" (accessKeyCreateAttributes Option.none label)
          = some (Value.list SessionPlanes.all) :=
  ⟨rfl, rfl, rfl⟩

/-- **C9 counterexample** — the reload trigger does not accept a
caller-supplied timeout: `Configurations.reload` takes only the config
type and always passes the fixed bound `60 * 15 = 900` seconds to
`request_job`.  A job turning terminal after 2 seconds succeeds even
though a caller asking for a 1-second bound (the spec's own scenario)
should have seen a `TimeoutError`. -/
theorem c9_reload_no_caller_timeout_counterexample :
    (Configurations.reload "events" 2).1.timeout = 900
      ∧ (Configurations.reload "events" 2).1.timeout ≠ 1
      ∧ (Configurations.reload "events" 2).2 = Except.ok () :=
  ⟨rfl, by decide, rfl⟩

/-- **C9 (amended)** — the reload trigger passes the fixed bound of
`60 * 15 = 900` seconds (not a caller-supplied one) to the job-polling
transport call on the `configurations/{kind}/reloads` path, and the call
fails with `TimeoutError` exactly when the job has not reached a terminal
state within those 900 seconds. -/
theorem c9_reload_fixed_timeout (config_type : String) (terminalAt : Nat) :
    (Configurations.reload config_type terminalAt).1.path
        = "configurations/" ++ config_type ++ "/reloads"
      ∧ (Configurations.reload config_type terminalAt).1.timeout = 900
      ∧ ((Configurations.reload config_type terminalAt).2
            = Except.error ErrKind.timeoutError ↔ 900 < terminalAt) := by
  refine ⟨rfl, rfl, ?_⟩
  by_cases h : 900 < terminalAt
  · simp [Configurations.reload, requestJob, h]
  · simp [Configurations.reload, requestJob, h]

/-- **C10** — for every `User` instance, the encoded write payload never
contains the `password` field, even when a password value is set on the
instance: the field is declared `Field(None, exclude=True)` and is dropped
by every `.dict()` call. -/
theorem c10_password_never_encoded (r : Resource) :
    lookupStr "password" (fieldsToAttributes userSchema r) = Option.none := by
  apply lookupStr_eq_none
  intro p hp hk
  rw [fieldsToAttributes, List.mem_filter] at hp
  obtain ⟨_hmem, hcond⟩ := hp
  simp only [Bool.and_eq_true, Bool.not_eq_true'] at hcond
  obtain ⟨⟨⟨_ha, hb⟩, _hc⟩, _hd⟩ := hcond
  rw [hk] at hb
  have hpw : (userSchema.any fun s => s.name == "password" && s.excludeFromDict) = true := by
    decide
  rw [hpw] at hb
  exact Bool.noConfusion hb

end V3io
